import Mathlib

/-!
Verification of the real-time speech streaming engine of
`voice-assistant` (`internal/speech/azure.go`), as a shallow embedding.

The engine's pure logic — message framing, inbound-frame demultiplexing,
the session state machine driven by `StartContinuousRecognition`,
`StopContinuousRecognition`, the audio callback `processAudio`, the
periodic flush tick of `handleAudioStreaming`, and the error branch of
`handleWebSocketMessages` — is translated into executable Lean
definitions.  External effects (WebSocket dial/send results, PortAudio
open/start results) are passed in as explicit environment values, and
observable side effects (frames sent, connection closed, callbacks
invoked) are collected into an ordered event list.
-/

namespace VoiceAssistant

/-- One entry of the `NBest` array of an Azure speech result
(`SpeechResultMessage.NBest` in `azure.go`). -/
structure NBestEntry where
  Display : String
deriving DecidableEq

/-- The JSON shape of an Azure `speech.phrase` result message
(`SpeechResultMessage` in `azure.go`). -/
structure SpeechResultMessage where
  Path : String
  RequestId : String
  RecognitionStatus : String
  DisplayText : String
  Text : String
  Offset : Int
  Duration : Int
  NBest : List NBestEntry
deriving DecidableEq

/-- Observable effects of the engine, in the order the code performs
them: frames written to the WebSocket, resource releases, flag
mutations of `StopContinuousRecognition`, and caller callbacks. -/
inductive Event where
  | sentAudioFrame (samples : List Int)
  | sentEndOfAudio
  | setShuttingDown
  | releasedAudioDevice
  | closedConnection
  | clearedListening
  | resetShuttingDown
  | errorCallback
  | recognizedCallback (text : String)
deriving DecidableEq

/-! ## Byte-sequence utilities (embedding of `bytes.Split` / `bytes.Contains`)

Inbound textual frames are modelled as `List Char` (the byte string of
the frame; all protocol-relevant bytes are ASCII). -/

/-- Split a list at the first occurrence of `sep`: returns the part
before the first occurrence and the part after it, or `none` when `sep`
does not occur.  This is the first step of Go's `bytes.Split`. -/
def breakOnSep (sep : List Char) : List Char → Option (List Char × List Char)
  | [] => if sep = [] then some ([], []) else none
  | c :: rest =>
    if sep.isPrefixOf (c :: rest) then some ([], (c :: rest).drop sep.length)
    else
      match breakOnSep sep rest with
      | some (pre, post) => some (c :: pre, post)
      | none => none

/-- The first two parts of Go's `bytes.Split data sep`: `none` exactly
when `sep` does not occur in `data` (i.e. `len(parts) < 2`); otherwise
the part before the first occurrence and the part between the first and
the second occurrence (or the rest when there is no second one). -/
def splitFirstTwo (sep data : List Char) : Option (List Char × List Char) :=
  match breakOnSep sep data with
  | none => none
  | some (h, rest) =>
    match breakOnSep sep rest with
    | none => some (h, rest)
    | some (b, _) => some (h, b)

/-- Go's `bytes.Contains s pat`: does `pat` occur in `s`? -/
def containsSeq (pat s : List Char) : Bool :=
  (breakOnSep pat s).isSome

/-- The blank-line separator `"\r\n\r\n"` between header block and body
of a textual frame. -/
def sepBlank : List Char := ('\r' :: '\n' :: '\r' :: '\n' :: [])

/-- The byte sequence `handleTextMessage` looks for in the header block
of an inbound textual frame (`bytes.Contains(headers, []byte("Path:speech.phrase"))`). -/
def phrasePat : List Char := "Path:speech.phrase".toList

/-! ## Demultiplexer: `handleTextMessage` -/

/-- Embedding of `handleTextMessage` in `azure.go`.

`decode` stands for `json.Unmarshal` into `SpeechResultMessage`
(`none` = unmarshal error); `onRecognizedSet` is whether the
`onRecognized` callback is non-nil.  The result is the list of texts
passed to the recognized-text callback, in order (so `[]` means the
callback is not invoked, `[t]` means it is invoked exactly once
with `t`). -/
def handleTextMessage (decode : List Char → Option SpeechResultMessage)
    (onRecognizedSet : Bool) (data : List Char) : List String :=
  match splitFirstTwo sepBlank data with
  | none => []
  | some (headers, body) =>
    if containsSeq phrasePat headers then
      match decode body with
      | none => []
      | some result =>
        if result.RecognitionStatus = "Success" then
          let finalText :=
            if result.DisplayText ≠ "" then result.DisplayText
            else
              match result.NBest with
              | e :: _ => if e.Display ≠ "" then e.Display else ""
              | [] => ""
          if finalText ≠ "" then
            (if onRecognizedSet then [finalText] else [])
          else []
        else []
    else []

/-- An inbound textual frame whose header block carries the given
`Path` field value, a request id, a content type, and then the body
after the blank-line separator.  The `path` argument IS the frame's
header path field. -/
def mkTextFrame (path rid : String) (body : List Char) : List Char :=
  ("X-RequestId:" ++ rid ++ "\r\nPath:" ++ path ++
    "\r\nContent-Type:application/json\r\n\r\n").toList ++ body

/-! ## Protocol framer: `sendAudioChunk` and the end-of-audio frame -/

/-- Go's `binary.BigEndian.PutUint16`: the 2-byte big-endian encoding
of a 16-bit value, as written at the front of every binary frame by
`sendAudioChunk` and `StopContinuousRecognition`. -/
def putUint16BE (v : Nat) : List Nat :=
  [v / 256 % 256, v % 256]

/-- Decoding of a 2-byte big-endian length prefix
(`binary.BigEndian.Uint16`): first byte is the high byte. -/
def readUint16BE (bs : List Nat) : Nat :=
  bs.getD 0 0 * 256 + bs.getD 1 0

/-- Go's `uint16(sample)` conversion of an `int16` sample: the value
modulo 2^16 (two's complement for negative samples). -/
def uint16OfInt (s : Int) : Nat :=
  (s % 65536).toNat

/-- The little-endian 16-bit PCM byte encoding of a sample sequence,
as written by the loop in `sendAudioChunk`
(`binary.LittleEndian.PutUint16`). -/
def pcmLE (samples : List Int) : List Nat :=
  (samples.map (fun s => [uint16OfInt s % 256, uint16OfInt s / 256])).flatten

/-- The ASCII header block of a binary audio frame
(`"path:audio\r\nx-requestid:…\r\nx-timestamp:…\r\n\r\n"`), identical in
`sendAudioChunk` and in the end-of-audio branch of
`StopContinuousRecognition`. -/
def mkBinaryHeader (requestId timestamp : String) : List Char :=
  ("path:audio\r\nx-requestid:" ++ requestId ++ "\r\nx-timestamp:" ++
    timestamp ++ "\r\n\r\n").toList

/-- The complete binary audio message built by `sendAudioChunk`:
2-byte big-endian header length, then the header block, then the
little-endian PCM payload. -/
def encodeAudioMessage (requestId timestamp : String) (samples : List Int) : List Nat :=
  let headerBytes := (mkBinaryHeader requestId timestamp).map Char.toNat
  putUint16BE (headerBytes.length % 65536) ++ headerBytes ++ pcmLE samples

/-- The end-of-audio marker message built by
`StopContinuousRecognition`: 2-byte big-endian header length and the
header block only, zero-length payload. -/
def endOfAudioMessage (requestId timestamp : String) : List Nat :=
  let headerBytes := (mkBinaryHeader requestId timestamp).map Char.toNat
  putUint16BE (headerBytes.length % 65536) ++ headerBytes

/-! ## Session state machine

The mutable fields of `AzureWebSocketSpeechService` that the lifecycle
operations read and write.  `conn` and `stream` are `Option Unit`:
`none` is Go's `nil` handle. -/

/-- The session state of `AzureWebSocketSpeechService`. -/
structure EngineState where
  isConnected : Bool
  isListening : Bool
  isShuttingDown : Bool
  conn : Option Unit
  stream : Option Unit
  audioBuffer : List Int
  requestId : String
  connectionId : String
  onRecognizedSet : Bool
  onErrorSet : Bool
deriving DecidableEq

/-- Outcomes of the external calls made during
`StartContinuousRecognition`: the WebSocket dial, the configuration
frame `WriteMessage`, `portaudio.OpenDefaultStream` and
`stream.Start`, plus the fresh connection id generated on a
successful dial. -/
structure StartEnv where
  dialOk : Bool
  configSendOk : Bool
  openStreamOk : Bool
  streamStartOk : Bool
  newConnectionId : String
deriving DecidableEq

/-- The two error cases `StartContinuousRecognition` can return:
`connectFailed` wraps any `connectWebSocket` failure (dial or
configuration-frame send), `captureFailed` wraps any
`startAudioCapture` failure. -/
inductive StartError where
  | connectFailed
  | captureFailed
deriving DecidableEq

/-- Embedding of `cleanup` in `azure.go`: stop/close/clear the audio
stream when it is non-nil.  Always returns a nil error in the code. -/
def cleanup (s : EngineState) : EngineState × List Event :=
  match s.stream with
  | some _ => ({ s with stream := none }, [Event.releasedAudioDevice])
  | none => (s, [])

/-- Embedding of `disconnectWebSocket` in `azure.go`: close the
connection when non-nil, clear the handle, clear the connected flag. -/
def disconnectWebSocket (s : EngineState) : EngineState × List Event :=
  match s.conn with
  | some _ => ({ s with conn := none, isConnected := false }, [Event.closedConnection])
  | none => ({ s with conn := none, isConnected := false }, [])

/-- Embedding of `connectWebSocket` in `azure.go`: on a successful
dial, store the handle, set the connected flag, assign a fresh
connection id, then send the configuration frame and return that
send's result; on dial failure return failure with the state
untouched.  The returned `Bool` is success. -/
def connectWebSocket (env : StartEnv) (s : EngineState) : EngineState × Bool :=
  if env.dialOk then
    ({ s with conn := some (), isConnected := true,
              connectionId := env.newConnectionId }, env.configSendOk)
  else (s, false)

/-- Embedding of `startAudioCapture` in `azure.go`: reset the audio
buffer, open the default stream, store the handle, start the stream;
on a `Start` failure run `cleanup` before returning failure. -/
def startAudioCapture (env : StartEnv) (s : EngineState) : EngineState × List Event × Bool :=
  let s1 := { s with audioBuffer := [] }
  if env.openStreamOk then
    let s2 := { s1 with stream := some () }
    if env.streamStartOk then (s2, [], true)
    else
      let (s3, ev) := cleanup s2
      (s3, ev, false)
  else (s1, [], false)

/-- Embedding of `StartContinuousRecognition` in `azure.go`: no-op
success when already listening; otherwise connect (dial plus
configuration frame), then start audio capture — rolling the
connection back with `disconnectWebSocket` only on the capture-failure
path — then set the listening flag. -/
def start (env : StartEnv) (s : EngineState) :
    EngineState × List Event × Option StartError :=
  if s.isListening then (s, [], none)
  else
    let (s1, connOk) := connectWebSocket env s
    if connOk then
      let (s2, ev2, capOk) := startAudioCapture env s1
      if capOk then ({ s2 with isListening := true }, ev2, none)
      else
        let (s3, ev3) := disconnectWebSocket s2
        (s3, ev2 ++ ev3, some StartError.captureFailed)
    else (s1, [], some StartError.connectFailed)

/-- Embedding of `StopContinuousRecognition` in `azure.go`: no-op
success when not listening; otherwise, in order: set the
shutting-down flag, send the end-of-audio frame when the connection
is still open (`isConnected && conn != nil`), release the audio device
(`cleanup`), close the connection (`disconnectWebSocket`), clear the
listening flag, reset the shutting-down flag, and return a nil error. -/
def stop (s : EngineState) : EngineState × List Event × Option String :=
  if s.isListening then
    let s1 := { s with isShuttingDown := true }
    let evEoa := if s1.isConnected && s1.conn.isSome then [Event.sentEndOfAudio] else []
    let (s2, ev2) := cleanup s1
    let (s3, ev3) := disconnectWebSocket s2
    let s4 := { s3 with isListening := false, isShuttingDown := false }
    (s4, [Event.setShuttingDown] ++ evEoa ++ ev2 ++ ev3 ++
      [Event.clearedListening, Event.resetShuttingDown], none)
  else (s, [], none)

/-! ## Audio callback and flush task -/

/-- Sum of absolute sample values, as accumulated by the loop in
`processAudio`. -/
def absSum : List Int → Int
  | [] => 0
  | x :: xs => (if x < 0 then -x else x) + absSum xs

/-- The mean absolute amplitude computed by `processAudio`:
`sum / int64(len(in))` with no guard — `none` models the Go runtime
panic on division by zero for an empty input slice. -/
def meanAbsAmplitude (input : List Int) : Option Int :=
  if input.length = 0 then none
  else some (absSum input / input.length)

/-- Embedding of the audio callback `processAudio` in `azure.go`:
return immediately unless both the listening and the connected flag
are set; otherwise append the incoming samples to the buffer and
compute the diagnostic amplitude (`none` = the division-by-zero
panic on an empty input slice). -/
def processAudio (s : EngineState) (input : List Int) : Option EngineState :=
  if s.isListening && s.isConnected then
    let s1 := { s with audioBuffer := s.audioBuffer ++ input }
    match meanAbsAmplitude input with
    | none => none
    | some _ => some s1
  else some s

/-- Embedding of one tick of the flush loop in `handleAudioStreaming`:
exit when no longer listening or connected; otherwise, when the buffer
is non-empty, send it as one audio frame (`sendAudioChunk`) and reset
the buffer, or invoke the error callback and exit when the send fails
(`sendOk` is the `WriteMessage` outcome). -/
def flushTick (sendOk : Bool) (s : EngineState) : EngineState × List Event :=
  if s.isListening && s.isConnected then
    if 0 < s.audioBuffer.length then
      if sendOk then
        ({ s with audioBuffer := [] }, [Event.sentAudioFrame s.audioBuffer])
      else (s, if s.onErrorSet then [Event.errorCallback] else [])
    else (s, [])
  else (s, [])

/-- Embedding of the read-error branch of `handleWebSocketMessages`:
on a `ReadMessage` failure, the error callback fires exactly when the
shutting-down flag is clear, the error is not a normal-closure /
going-away close error (`isExpectedClose` is
`websocket.IsCloseError(err, CloseNormalClosure, CloseGoingAway)`),
and the callback is registered. -/
def recvFailureEvents (s : EngineState) (isExpectedClose : Bool) : List Event :=
  if !s.isShuttingDown && !isExpectedClose then
    if s.onErrorSet then [Event.errorCallback] else []
  else []

/-! ## End-to-end scenario -/

/-- A started session: listening and connected, with live connection
and stream handles and an empty buffer. -/
def startedState (rid cid : String) (onR onE : Bool) : EngineState :=
  { isConnected := true, isListening := true, isShuttingDown := false,
    conn := some (), stream := some (), audioBuffer := [],
    requestId := rid, connectionId := cid,
    onRecognizedSet := onR, onErrorSet := onE }

/-- Three rounds of audio capture followed by a flush tick, then
`stop`: the end-to-end scenario of the spec.  `none` would mean a
`processAudio` panic (impossible for non-empty inputs). -/
def scenario3 (s : EngineState) (b1 b2 b3 : List Int) :
    Option (EngineState × List Event) := do
  let s1 ← processAudio s b1
  let (s2, e1) := flushTick true s1
  let s3 ← processAudio s2 b2
  let (s4, e2) := flushTick true s3
  let s5 ← processAudio s4 b3
  let (s6, e3) := flushTick true s5
  let (s7, e4, _) := stop s6
  return (s7, e1 ++ e2 ++ e3 ++ e4)

/-- The events observable on the wire: frames sent and the connection
closing. -/
def isWireEvent : Event → Bool
  | Event.sentAudioFrame _ => true
  | Event.sentEndOfAudio => true
  | Event.closedConnection => true
  | _ => false

/-! ## Concrete fixtures used by witnesses and counterexamples -/

/-- A freshly constructed idle engine: no connection, no stream, not
listening. -/
def idleState0 : EngineState :=
  { isConnected := false, isListening := false, isShuttingDown := false,
    conn := none, stream := none, audioBuffer := [],
    requestId := "r0", connectionId := "c0",
    onRecognizedSet := true, onErrorSet := true }

/-- Environment where the WebSocket dial succeeds but the
configuration-frame `WriteMessage` fails. -/
def envConfigSendFails : StartEnv :=
  { dialOk := true, configSendOk := false, openStreamOk := true,
    streamStartOk := true, newConnectionId := "c1" }

/-- Environment where every external call succeeds. -/
def envAllOk : StartEnv :=
  { dialOk := true, configSendOk := true, openStreamOk := true,
    streamStartOk := true, newConnectionId := "c1" }

/-- A successful speech result with primary text `"hi"`. -/
def r0 : SpeechResultMessage :=
  { Path := "", RequestId := "", RecognitionStatus := "Success",
    DisplayText := "hi", Text := "", Offset := 0, Duration := 0, NBest := [] }

/-- The JSON body of `r0` as sent by the service. -/
def body0 : List Char :=
  "\x7b\"RecognitionStatus\":\"Success\",\"DisplayText\":\"hi\"\x7d".toList

/-- A concrete `json.Unmarshal` environment: decodes `body0` to `r0`
and fails on everything else. -/
def decode0 : List Char → Option SpeechResultMessage :=
  fun b => if b = body0 then some r0 else none

/-- The header block of `mkTextFrame path "r1" body0` for
`path = "speech.phrase"`. -/
def headersPhrase : List Char :=
  "X-RequestId:r1\r\nPath:speech.phrase\r\nContent-Type:application/json".toList

/-- The header block of `mkTextFrame path "r1" body0` for
`path = "turn.end"`. -/
def headersTurnEnd : List Char :=
  "X-RequestId:r1\r\nPath:turn.end\r\nContent-Type:application/json".toList

/-! ## Claim theorems -/

/-- Claim C8: the 2-byte big-endian header-length prefix round-trips —
for every header block length `L` with `0 ≤ L ≤ 65535`, decoding the
2-byte big-endian encoding of `L` (as written by `sendAudioChunk`)
yields `L` again. -/
theorem C8_headerLength_roundTrip (L : Nat) (h : L ≤ 65535) :
    readUint16BE (putUint16BE L) = L := by
  simp only [putUint16BE, readUint16BE, List.getD]
  simp only [List.get?, Option.getD]
  omega

/-- Witness for C8 at `L = 300`. -/
theorem C8_headerLength_roundTrip_witness :
    readUint16BE (putUint16BE 300) = 300 :=
  C8_headerLength_roundTrip 300 (by decide)

/-- Claim C9: `processAudio` computes the mean absolute amplitude by
dividing by the length of the input slice with no guard; for every
non-empty input frame the computation is total (the division-by-zero
branch is unreachable), and the empty input slice is the one input on
which the unguarded division can be reached. -/
theorem C9_processAudio_division_guard :
    (∀ s input, input ≠ [] → (processAudio s input).isSome = true) ∧
    (∀ s input, processAudio s input = none → input = []) ∧
    processAudio (startedState "r" "c" true true) [] = none := by
  have key : ∀ (s : EngineState) (input : List Int), input ≠ [] →
      (processAudio s input).isSome = true := by
    intro s input h
    have hlen : input.length ≠ 0 := by
      simpa [List.length_eq_zero] using h
    simp only [processAudio, meanAbsAmplitude, hlen, if_neg]
    split <;> rfl
  refine ⟨key, ?_, ?_⟩
  · intro s input h
    by_contra hne
    have := key s input hne
    rw [h] at this
    simp at this
  · rfl

/-- Witness for C9 on a non-empty frame. -/
theorem C9_processAudio_division_guard_witness :
    (processAudio (startedState "r0" "c0" true true) [3, -4]).isSome = true :=
  C9_processAudio_division_guard.1 _ _ (by simp)

/-- Claim C10: every `processAudio` call while the listening flag or
the connected flag is clear returns immediately with the whole session
state (audio buffer included) unchanged; the buffer changes only when
both flags are set. -/
theorem C10_processAudio_flag_gate :
    (∀ s input, (s.isListening = false ∨ s.isConnected = false) →
      processAudio s input = some s) ∧
    (∀ s input s', processAudio s input = some s' →
      s'.audioBuffer ≠ s.audioBuffer →
      s.isListening = true ∧ s.isConnected = true) := by
  constructor
  · intro s input h
    have hflag : (s.isListening && s.isConnected) = false := by
      rcases h with h | h <;> simp [h]
    simp [processAudio, hflag]
  · intro s input s' h hne
    by_cases hflag : (s.isListening && s.isConnected) = true
    · exact ⟨(Bool.and_eq_true _ _ |>.mp hflag).1, (Bool.and_eq_true _ _ |>.mp hflag).2⟩
    · simp [processAudio, Bool.eq_false_iff.mpr hflag] at h
      rw [← h] at hne
      exact absurd rfl hne

/-- Witness for C10: a call on an idle engine leaves the state
untouched. -/
theorem C10_processAudio_flag_gate_witness :
    processAudio idleState0 [7] = some idleState0 :=
  C10_processAudio_flag_gate.1 _ _ (Or.inl rfl)

/-- Claim C7: `StartContinuousRecognition` while already listening
returns success with no side effects (whole state — in particular
`requestId` and `connectionId` — unchanged, no events, so no second
connection); `StopContinuousRecognition` while not listening returns
success with no side effects and no callback invocation. -/
theorem C7_start_stop_idempotent :
    (∀ env s, s.isListening = true → start env s = (s, [], none)) ∧
    (∀ s, s.isListening = false → stop s = (s, [], none)) := by
  constructor
  · intro env s h
    simp [start, h]
  · intro s h
    simp [stop, h]

/-- Witness for C7: a redundant `start` on a listening session and a
redundant `stop` on an idle engine are both no-op successes. -/
theorem C7_start_stop_idempotent_witness :
    start envAllOk (startedState "r" "c" true true) =
      (startedState "r" "c" true true, [], none) ∧
    stop idleState0 = (idleState0, [], none) :=
  ⟨C7_start_stop_idempotent.1 envAllOk _ rfl,
   C7_start_stop_idempotent.2 _ rfl⟩

/-- Claim C1: evaluation of `StartContinuousRecognition` on an idle
engine in the environment where the dial succeeds but the
configuration-frame send fails.  The call returns the connect error
and leaves the listening flag clear, but — contrary to the claim that
every partially-opened resource is released — the connected flag is
still set and the connection handle is still non-nil: the
`sendSpeechConfig` failure path of `connectWebSocket` never calls
`disconnectWebSocket`. -/
theorem C1_config_send_failure_leaks_connection :
    (start envConfigSendFails idleState0).2.2 = some StartError.connectFailed ∧
    (start envConfigSendFails idleState0).1.isListening = false ∧
    (start envConfigSendFails idleState0).1.isConnected = true ∧
    (start envConfigSendFails idleState0).1.conn = some () := by
  refine ⟨rfl, rfl, rfl, rfl⟩

/-- Counterexample to claim C6 as stated: a read failure while the
shutting-down flag is clear and the error callback is registered, but
where the error is a normal-closure/going-away close error, produces
zero error-callback invocations — not exactly one. -/
theorem C6_counterexample :
    (startedState "r" "c" true true).isShuttingDown = false ∧
    (startedState "r" "c" true true).onErrorSet = true ∧
    recvFailureEvents (startedState "r" "c" true true) true = [] :=
  ⟨rfl, rfl, rfl⟩

/-- Claim C6 (amended): for every read failure in the receive loop —
if the shutting-down flag is set, the error callback is invoked zero
times; if the flag is clear and the error is not a normal-closure or
going-away close error and the callback is registered, it is invoked
exactly once; if the error is such an expected close error, it is
invoked zero times even with the flag clear. -/
theorem C6_recv_failure_callback (s : EngineState) (isExpectedClose : Bool) :
    (s.isShuttingDown = true → recvFailureEvents s isExpectedClose = []) ∧
    (s.isShuttingDown = false → isExpectedClose = false → s.onErrorSet = true →
      recvFailureEvents s isExpectedClose = [Event.errorCallback]) ∧
    (isExpectedClose = true → recvFailureEvents s isExpectedClose = []) := by
  refine ⟨?_, ?_, ?_⟩ <;> intros <;> simp [recvFailureEvents, *]

/-- Witness for C6: an unexpected read failure on a live session with
the flag clear fires the error callback exactly once. -/
theorem C6_recv_failure_callback_witness :
    recvFailureEvents (startedState "r" "c" true true) false =
      [Event.errorCallback] :=
  (C6_recv_failure_callback (startedState "r" "c" true true) false).2.1 rfl rfl rfl

/-- Claim C5: `StopContinuousRecognition` while listening performs its
effects in exactly this order — set the shutting-down flag; send the
end-of-audio marker if and only if the connection is still open;
release the audio device; close the connection and clear the connected
flag; clear the listening flag; reset the shutting-down flag — and
returns success leaving the engine idle.  The end-of-audio marker is
the same frame as an audio frame with the same header and a
zero-length payload. -/
theorem C5_stop_effect_order (s : EngineState)
    (hl : s.isListening = true) (hs : s.stream = some ()) :
    stop s = ({ s with
        stream := none,
        conn := none,
        isConnected := false,
        isListening := false,
        isShuttingDown := false },
      [Event.setShuttingDown] ++
        (if s.isConnected && s.conn.isSome then [Event.sentEndOfAudio] else []) ++
        [Event.releasedAudioDevice] ++
        (if s.conn.isSome then [Event.closedConnection] else []) ++
        [Event.clearedListening, Event.resetShuttingDown], none) ∧
    (∀ rid ts, endOfAudioMessage rid ts = encodeAudioMessage rid ts [] ∧
      pcmLE [] = []) := by
  constructor
  · cases hc : s.conn with
    | none => simp [stop, cleanup, disconnectWebSocket, hl, hs, hc]
    | some u =>
      cases u
      simp [stop, cleanup, disconnectWebSocket, hl, hs, hc]
  · intro rid ts
    constructor
    · simp [endOfAudioMessage, encodeAudioMessage, pcmLE]
    · rfl

/-- Witness for C5 on a live session with an open connection. -/
theorem C5_stop_effect_order_witness :
    stop (startedState "r" "c" true true) =
      ({ startedState "r" "c" true true with
          stream := none,
          conn := none,
          isConnected := false,
          isListening := false,
          isShuttingDown := false },
        [Event.setShuttingDown, Event.sentEndOfAudio, Event.releasedAudioDevice,
          Event.closedConnection, Event.clearedListening,
          Event.resetShuttingDown], none) := by
  have h := (C5_stop_effect_order (startedState "r" "c" true true) rfl rfl).1
  simpa using h

/-- Claim C2: for every inbound textual frame whose header block
carries the distinguished final-phrase path (so that the
`Path:speech.phrase` check of `handleTextMessage` fires) and whose
body decodes to result `r`: with status `"Success"` and non-empty
`DisplayText` the recognized-text callback is invoked exactly once
with exactly that text; with status `"Success"`, empty `DisplayText`
and a non-empty first N-best alternative it is invoked exactly once
with the alternative; with any status other than `"Success"` it is
invoked zero times. -/
theorem C2_final_phrase_dispatch
    (decode : List Char → Option SpeechResultMessage)
    (data headers body : List Char) (r : SpeechResultMessage)
    (hsplit : splitFirstTwo sepBlank data = some (headers, body))
    (hpath : containsSeq phrasePat headers = true)
    (hdec : decode body = some r) :
    (r.RecognitionStatus = "Success" → r.DisplayText ≠ "" →
      handleTextMessage decode true data = [r.DisplayText]) ∧
    (∀ e rest, r.RecognitionStatus = "Success" → r.DisplayText = "" →
      r.NBest = e :: rest → e.Display ≠ "" →
      handleTextMessage decode true data = [e.Display]) ∧
    (r.RecognitionStatus ≠ "Success" → handleTextMessage decode true data = []) := by
  refine ⟨?_, ?_, ?_⟩
  · intro hst hdt
    simp [handleTextMessage, hsplit, hpath, hdec, hst, hdt]
  · intro e rest hst hdt hnb he
    simp [handleTextMessage, hsplit, hpath, hdec, hst, hdt, hnb, he]
  · intro hst
    simp [handleTextMessage, hsplit, hpath, hdec, hst]

/-- Witness for C2: the concrete `speech.phrase` frame with body
`body0` makes the engine emit exactly `"hi"`. -/
theorem C2_final_phrase_dispatch_witness :
    handleTextMessage decode0 true (mkTextFrame "speech.phrase" "r1" body0) =
      ["hi"] :=
  (C2_final_phrase_dispatch decode0
    (mkTextFrame "speech.phrase" "r1" body0) headersPhrase body0 r0
    (by decide) (by decide) (by decide)).1 (by decide) (by decide)

/-- Counterexample to claim C3 as stated: the code checks substring
containment of `"Path:speech.phrase"` in the header block, not
equality of the path field, so the frame whose path field is
`"speech.phrases"` — a value other than the distinguished final-phrase
path — still gets its body decoded and dispatched to the
recognized-text callback. -/
theorem C3_counterexample :
    "speech.phrases" ≠ "speech.phrase" ∧
    handleTextMessage decode0 true (mkTextFrame "speech.phrases" "r1" body0) =
      ["hi"] :=
  ⟨by decide, by decide⟩

/-- Claim C3 (amended): the demultiplexer's path test is substring
containment of `"Path:speech.phrase"` in the header block.  For every
inbound textual frame whose header block does not contain that byte
sequence — in particular every frame whose path field neither equals
nor extends `speech.phrase` — the recognized-text callback is never
invoked, regardless of body content; likewise for every frame without
a blank-line separator. -/
theorem C3_no_dispatch_without_phrase_pattern
    (decode : List Char → Option SpeechResultMessage)
    (onRec : Bool) (data : List Char) :
    (splitFirstTwo sepBlank data = none →
      handleTextMessage decode onRec data = []) ∧
    (∀ headers body, splitFirstTwo sepBlank data = some (headers, body) →
      containsSeq phrasePat headers = false →
      handleTextMessage decode onRec data = []) := by
  constructor
  · intro hsplit
    simp [handleTextMessage, hsplit]
  · intro headers body hsplit hpath
    simp [handleTextMessage, hsplit, hpath]

/-- Witness for C3 (amended): a `turn.end` frame emits nothing. -/
theorem C3_no_dispatch_without_phrase_pattern_witness :
    handleTextMessage decode0 true (mkTextFrame "turn.end" "r1" body0) = [] :=
  (C3_no_dispatch_without_phrase_pattern decode0 true
    (mkTextFrame "turn.end" "r1" body0)).2 headersTurnEnd body0
    (by decide) (by decide)

/-- Claim C4: in a session that starts successfully, then experiences
exactly three flush ticks each finding 1,600 buffered samples, then
stops, the wire traffic is exactly three audio frames carrying the
three buffers in the order they were filled, then exactly one
end-of-audio frame, all before the connection is closed. -/
theorem C4_three_flushes_then_stop (rid cid : String) (onR onE : Bool)
    (b1 b2 b3 : List Int)
    (h1 : b1.length = 1600) (h2 : b2.length = 1600) (h3 : b3.length = 1600) :
    (scenario3 (startedState rid cid onR onE) b1 b2 b3).map
        (fun p => p.2.filter isWireEvent) =
      some [Event.sentAudioFrame b1, Event.sentAudioFrame b2,
        Event.sentAudioFrame b3, Event.sentEndOfAudio,
        Event.closedConnection] := by
  have e1 : b1.length ≠ 0 := by omega
  have e2 : b2.length ≠ 0 := by omega
  have e3 : b3.length ≠ 0 := by omega
  simp [scenario3, startedState, processAudio, meanAbsAmplitude, flushTick,
    stop, cleanup, disconnectWebSocket, isWireEvent, e1, e2, e3, h1, h2, h3]

/-- Witness for C4 with three buffers of 1,600 samples of silence. -/
theorem C4_three_flushes_then_stop_witness :
    (scenario3 (startedState "r" "c" true true) (List.replicate 1600 0)
        (List.replicate 1600 0) (List.replicate 1600 0)).map
        (fun p => p.2.filter isWireEvent) =
      some [Event.sentAudioFrame (List.replicate 1600 0),
        Event.sentAudioFrame (List.replicate 1600 0),
        Event.sentAudioFrame (List.replicate 1600 0),
        Event.sentEndOfAudio, Event.closedConnection] :=
  C4_three_flushes_then_stop "r" "c" true true _ _ _
    (by rw [List.length_replicate]) (by rw [List.length_replicate])
    (by rw [List.length_replicate])

end VoiceAssistant
